import Mathlib

/-!
Verification of the sample DSP filter plugin
(`src/crates/plugins/examples/sample_dsp_plugin.c`).

The C code is shallowly embedded as follows.  IEEE `float` arithmetic is
idealized as arithmetic in a linear ordered field `K`; the constant `M_PI`
becomes an explicit parameter `pi : K` (theorems that need it assume
`0 < pi`, which holds for the real number π).  Pointers that may be null
(`void* state`, `float* ffb_out`) become an `Option` state and a Boolean
flag recording whether the output slot is non-null.  `malloc` failure in
`plugin_create` is an explicit Boolean `alloc_ok`.  The `uint64_t`
frame counter becomes a `Nat` reduced modulo `2 ^ 64` at each increment,
matching C unsigned wrap-around.
-/

/-- `PluginState` from the C source: the plugin-private instance state. -/
structure PluginState (K : Type) where
  cutoff_freq : K
  sample_rate : K
  previous_output : K
  frame_count : Nat
deriving Repr

/-- `PluginInfo` from the C source: static plugin metadata. -/
structure PluginInfo where
  name : String
  version : String
  author : String
  description : String
  abi_version : Nat
deriving Repr

/-- `#define PLUGIN_ABI_VERSION 1`. -/
def PLUGIN_ABI_VERSION : Nat := 1

/-- The result of one `plugin_process` call: the returned `int` status, the
instance state after the call (the C code mutates it in place), and the value
written to `*ffb_out`, if any. -/
structure ProcessResult (K : Type) where
  status : Int
  state : Option (PluginState K)
  written : Option K

/-- `plugin_create`: allocates a state and fills in the defaults
(`cutoff_freq = 50`, `sample_rate = 1000`, `previous_output = 0`,
`frame_count = 0`).  The configuration bytes are accepted but never read
(the C code only carries a comment where parsing would go).  `alloc_ok`
models whether `malloc` succeeds; on failure the function returns NULL. -/
def plugin_create (K : Type) [LinearOrderedField K]
    (config : List Nat) (config_len : Nat) (alloc_ok : Bool) :
    Option (PluginState K) :=
  if alloc_ok then
    some { cutoff_freq := 50, sample_rate := 1000,
           previous_output := 0, frame_count := 0 }
  else
    none

/-- `rc = 1.0f / (2.0f * M_PI * state->cutoff_freq)` from `plugin_process`. -/
def rcOf {K : Type} [LinearOrderedField K] (pi c : K) : K :=
  1 / (2 * pi * c)

/-- `alpha = dt / (rc + dt)` from `plugin_process`. -/
def alphaOf {K : Type} [LinearOrderedField K] (pi c dt : K) : K :=
  dt / (rcOf pi c + dt)

/-- `plugin_process`: validates the instance and output pointers
(`if (!state || !ffb_out) return -1;`), then computes the one-pole low-pass
filter output, stores it as the new `previous_output`, writes it to
`*ffb_out`, increments `frame_count` and returns `0`. -/
def plugin_process {K : Type} [LinearOrderedField K] (pi : K)
    (state : Option (PluginState K))
    (ffb_in wheel_speed wheel_angle dt : K) (out_nonnull : Bool) :
    ProcessResult K :=
  match state, out_nonnull with
  | some st, true =>
      let alpha := alphaOf pi st.cutoff_freq dt
      let output := alpha * ffb_in + (1 - alpha) * st.previous_output
      { status := 0,
        state := some { st with
          previous_output := output,
          frame_count := (st.frame_count + 1) % 2 ^ 64 },
        written := some output }
  | _, _ => { status := -1, state := state, written := none }

/-- `plugin_destroy`: frees the state when it is non-null, otherwise does
nothing.  The Boolean records whether anything was released; the second
component is the instance state still alive after the call. -/
def plugin_destroy {K : Type} (state : Option (PluginState K)) :
    Bool × Option (PluginState K) :=
  match state with
  | some _ => (true, none)
  | none => (false, none)

/-- `plugin_get_info`: builds the static metadata record.  The `Unit`
argument mirrors the C `(void)` parameter list, one value per call. -/
def plugin_get_info (_u : Unit) : PluginInfo :=
  { name := "Sample DSP Filter",
    version := "1.0.0",
    author := "Racing Wheel Suite",
    description := "Simple low-pass filter for force feedback",
    abi_version := PLUGIN_ABI_VERSION }

/-- `n` consecutive `plugin_process` calls on a live instance with a non-null
output slot, threading the mutated state; `ins k` supplies the inputs
`(ffb_in, wheel_speed, wheel_angle, dt)` of call `k`. -/
def processIter {K : Type} [LinearOrderedField K] (pi : K)
    (ins : Nat → K × K × K × K) : Nat → PluginState K → Option (PluginState K)
  | 0, st => some st
  | n + 1, st =>
      (processIter pi ins n st).bind fun s =>
        (plugin_process pi (some s) (ins n).1 (ins n).2.1 (ins n).2.2.1
          (ins n).2.2.2 true).state

/-- The state produced by one successful `plugin_process` call, extracted for
reasoning about iterated calls; `process_state_step` proves it matches
`plugin_process`. -/
def stepState {K : Type} [LinearOrderedField K] (pi : K)
    (st : PluginState K) (i : K × K × K × K) : PluginState K :=
  { st with
    previous_output := alphaOf pi st.cutoff_freq i.2.2.2 * i.1
      + (1 - alphaOf pi st.cutoff_freq i.2.2.2) * st.previous_output,
    frame_count := (st.frame_count + 1) % 2 ^ 64 }

lemma process_state_step {K : Type} [LinearOrderedField K] (pi : K)
    (st : PluginState K) (f w a dt : K) :
    (plugin_process pi (some st) f w a dt true).state
      = some (stepState pi st (f, w, a, dt)) := rfl

lemma processIter_spec {K : Type} [LinearOrderedField K] (pi : K)
    (ins : Nat → K × K × K × K) (st : PluginState K) :
    ∀ n : Nat, ∃ s : PluginState K,
      processIter pi ins n st = some s
      ∧ s.cutoff_freq = st.cutoff_freq
      ∧ s.sample_rate = st.sample_rate
      ∧ (st.frame_count < 2 ^ 64 →
          s.frame_count = (st.frame_count + n) % 2 ^ 64) := by
  intro n
  induction n with
  | zero =>
      exact ⟨st, rfl, rfl, rfl, fun h => by rw [Nat.add_zero, Nat.mod_eq_of_lt h]⟩
  | succ n ih =>
      obtain ⟨s, hs, hc, hr, hf⟩ := ih
      refine ⟨stepState pi s (ins n), ?_, hc, hr, fun h => ?_⟩
      · rw [processIter, hs]
        rfl
      · show (s.frame_count + 1) % 2 ^ 64 = (st.frame_count + (n + 1)) % 2 ^ 64
        rw [hf h, Nat.mod_add_mod, Nat.add_assoc]

/-- C1: with a non-null instance and a non-null output slot, `plugin_process`
writes exactly `alpha * ffb_in + (1 - alpha) * previous_output` to the output
slot, where `rc = 1 / (2 * pi * cutoff_freq)` and `alpha = dt / (rc + dt)`,
and stores that same value as the new `previous_output`; a freshly created
instance has `previous_output = 0`. -/
theorem process_writes_lowpass_formula {K : Type} [LinearOrderedField K]
    (pi : K) (st : PluginState K) (ffb_in wheel_speed wheel_angle dt : K) :
    (plugin_process pi (some st) ffb_in wheel_speed wheel_angle dt true).written
      = some (dt / (1 / (2 * pi * st.cutoff_freq) + dt) * ffb_in
          + (1 - dt / (1 / (2 * pi * st.cutoff_freq) + dt)) * st.previous_output)
    ∧ Option.map PluginState.previous_output
        (plugin_process pi (some st) ffb_in wheel_speed wheel_angle dt true).state
      = some (dt / (1 / (2 * pi * st.cutoff_freq) + dt) * ffb_in
          + (1 - dt / (1 / (2 * pi * st.cutoff_freq) + dt)) * st.previous_output)
    ∧ ∀ (config : List Nat) (config_len : Nat),
        Option.map PluginState.previous_output
          (plugin_create K config config_len true) = some 0 :=
  ⟨rfl, rfl, fun _ _ => rfl⟩

/-- C2: `plugin_process` with a null instance or a null output slot returns a
negative status, writes nothing and leaves the instance state unchanged; with
both non-null it returns status `0` and writes the output slot. -/
theorem process_null_handling {K : Type} [LinearOrderedField K]
    (pi : K) (st : PluginState K) (f w a dt : K) :
    ((plugin_process pi none f w a dt true).status < 0
      ∧ (plugin_process pi none f w a dt true).written = none
      ∧ (plugin_process pi none f w a dt true).state = none)
    ∧ ((plugin_process pi none f w a dt false).status < 0
      ∧ (plugin_process pi none f w a dt false).written = none
      ∧ (plugin_process pi none f w a dt false).state = none)
    ∧ ((plugin_process pi (some st) f w a dt false).status < 0
      ∧ (plugin_process pi (some st) f w a dt false).written = none
      ∧ (plugin_process pi (some st) f w a dt false).state = some st)
    ∧ ((plugin_process pi (some st) f w a dt true).status = 0
      ∧ ((plugin_process pi (some st) f w a dt true).written).isSome = true) :=
  ⟨⟨show (-1 : Int) < 0 by decide, rfl, rfl⟩,
    ⟨show (-1 : Int) < 0 by decide, rfl, rfl⟩,
    ⟨show (-1 : Int) < 0 by decide, rfl, rfl⟩,
    rfl, rfl⟩

/-- C3 (counterexample to the unbounded claim): `frame_count` is a `uint64_t`
and wraps: after `2 ^ 64` successful `plugin_process` calls on a freshly
created instance the counter is `0`, not `2 ^ 64`. -/
theorem frame_count_wraps_at_two_pow_64 :
    Option.map PluginState.frame_count
        ((plugin_create ℝ [] 0 true).bind
          (processIter Real.pi (fun _ => (0, 0, 0, 1)) (2 ^ 64)))
      = some 0
    ∧ Option.map PluginState.frame_count
        ((plugin_create ℝ [] 0 true).bind
          (processIter Real.pi (fun _ => (0, 0, 0, 1)) (2 ^ 64)))
      ≠ some (2 ^ 64) := by
  have hbind : (plugin_create ℝ [] 0 true).bind
        (processIter Real.pi (fun _ => (0, 0, 0, 1)) (2 ^ 64))
      = processIter Real.pi (fun _ => (0, 0, 0, 1)) (2 ^ 64) ⟨50, 1000, 0, 0⟩ := by
    rw [show plugin_create ℝ [] 0 true = some ⟨50, 1000, 0, 0⟩ from rfl,
      Option.some_bind]
  obtain ⟨s, hs, hc, hr, hf⟩ :=
    processIter_spec Real.pi (fun _ => (0, 0, 0, 1)) ⟨50, 1000, 0, 0⟩ (2 ^ 64)
  have hfc : s.frame_count = 0 := by
    simpa using hf (by show (0 : Nat) < 2 ^ 64; norm_num)
  constructor
  · rw [hbind, hs, Option.map_some', hfc]
  · rw [hbind, hs, Option.map_some', hfc]
    simp

/-- C3 (amended): after `n` successful `plugin_process` calls on a freshly
created instance the frame counter equals `n % 2 ^ 64` — in particular it
equals `n` whenever `n < 2 ^ 64`; each successful call increments the counter
by one modulo `2 ^ 64`, and failing calls leave the state unchanged. -/
theorem frame_count_after_n_calls {K : Type} [LinearOrderedField K]
    (pi : K) (ins : Nat → K × K × K × K) (st : PluginState K)
    (f w a dt : K) (config : List Nat) (config_len n : Nat) :
    Option.map PluginState.frame_count
        ((plugin_create K config config_len true).bind (processIter pi ins n))
      = some (n % 2 ^ 64)
    ∧ (n < 2 ^ 64 →
        Option.map PluginState.frame_count
          ((plugin_create K config config_len true).bind (processIter pi ins n))
        = some n)
    ∧ Option.map PluginState.frame_count
        (plugin_process pi (some st) f w a dt true).state
      = some ((st.frame_count + 1) % 2 ^ 64)
    ∧ (plugin_process pi (some st) f w a dt false).state = some st
    ∧ (plugin_process pi none f w a dt false).state = none := by
  have hbind : (plugin_create K config config_len true).bind (processIter pi ins n)
      = processIter pi ins n ⟨50, 1000, 0, 0⟩ := rfl
  obtain ⟨s, hs, hc, hr, hf⟩ :=
    processIter_spec pi ins ⟨50, 1000, 0, 0⟩ n
  have hfc : s.frame_count = n % 2 ^ 64 := by
    simpa using hf (by show (0 : Nat) < 2 ^ 64; norm_num)
  refine ⟨?_, fun hn => ?_, rfl, rfl, rfl⟩
  · simp [hbind, hs, hfc]
  · simp only [hbind, hs, Option.map_some', hfc]
    rw [Nat.mod_eq_of_lt hn]

theorem frame_count_after_n_calls_witness :
    Option.map PluginState.frame_count
        ((plugin_create ℚ [] 0 true).bind
          (processIter (22 / 7 : ℚ) (fun _ => (1, 0, 0, 1 / 100)) 3))
      = some 3 :=
  (frame_count_after_n_calls (22 / 7 : ℚ) (fun _ => (1, 0, 0, 1 / 100))
    ⟨50, 1000, 0, 0⟩ 0 0 0 0 [] 0 3).2.1 (by norm_num)

/-- C4: for `pi > 0`, `cutoff_freq > 0` and `dt > 0`, the smoothing factor
`alpha = dt / (rc + dt)` computed inside `plugin_process`, with
`rc = 1 / (2 * pi * cutoff_freq)`, lies in `(0, 1]`. -/
theorem alpha_in_unit_interval {K : Type} [LinearOrderedField K]
    (pi dt : K) (st : PluginState K)
    (hpi : 0 < pi) (hc : 0 < st.cutoff_freq) (hdt : 0 < dt) :
    0 < alphaOf pi st.cutoff_freq dt ∧ alphaOf pi st.cutoff_freq dt ≤ 1 := by
  have h2 : 0 < 2 * pi * st.cutoff_freq := by positivity
  have hrc : 0 < rcOf pi st.cutoff_freq := div_pos one_pos h2
  unfold alphaOf
  constructor
  · exact div_pos hdt (by linarith)
  · rw [div_le_one (by linarith)]
    linarith

theorem alpha_in_unit_interval_witness :
    0 < alphaOf (22 / 7 : ℚ) 50 (1 / 1000)
    ∧ alphaOf (22 / 7 : ℚ) 50 (1 / 1000) ≤ 1 :=
  alpha_in_unit_interval (22 / 7 : ℚ) (1 / 1000) ⟨50, 1000, 0, 0⟩
    (by norm_num) (by show (0 : ℚ) < 50; norm_num) (by norm_num)

/-- C5: with `pi > 0` and `cutoff_freq > 0`, a `plugin_process` call with
`dt = 0` divides only by nonzero denominators, yields `alpha = 0`, writes the
prior `previous_output` to the output slot, and leaves `previous_output`
unchanged. -/
theorem process_dt_zero_holds_output {K : Type} [LinearOrderedField K]
    (pi : K) (st : PluginState K) (f w a : K)
    (hpi : 0 < pi) (hc : 0 < st.cutoff_freq) :
    2 * pi * st.cutoff_freq ≠ 0
    ∧ rcOf pi st.cutoff_freq + 0 ≠ 0
    ∧ alphaOf pi st.cutoff_freq 0 = 0
    ∧ (plugin_process pi (some st) f w a 0 true).written
        = some st.previous_output
    ∧ Option.map PluginState.previous_output
        (plugin_process pi (some st) f w a 0 true).state
      = some st.previous_output := by
  have h2 : 0 < 2 * pi * st.cutoff_freq := by positivity
  have hrc : 0 < rcOf pi st.cutoff_freq := div_pos one_pos h2
  have halpha : alphaOf pi st.cutoff_freq 0 = 0 := zero_div _
  refine ⟨ne_of_gt h2, by simpa using ne_of_gt hrc, halpha, ?_, ?_⟩
  · simp [plugin_process, halpha]
  · simp [plugin_process, halpha]

theorem process_dt_zero_holds_output_witness :
    2 * (22 / 7 : ℚ) * 50 ≠ 0
    ∧ rcOf (22 / 7 : ℚ) 50 + 0 ≠ 0
    ∧ alphaOf (22 / 7 : ℚ) 50 0 = 0
    ∧ (plugin_process (22 / 7 : ℚ) (some ⟨50, 1000, 7, 0⟩) 1 2 3 0 true).written
        = some 7
    ∧ Option.map PluginState.previous_output
        (plugin_process (22 / 7 : ℚ) (some ⟨50, 1000, 7, 0⟩) 1 2 3 0 true).state
      = some 7 :=
  process_dt_zero_holds_output (22 / 7 : ℚ) ⟨50, 1000, 7, 0⟩ 1 2 3
    (by norm_num) (by show (0 : ℚ) < 50; norm_num)

/-- C6: `plugin_create` returns null exactly when allocation fails; with the
allocation succeeding, no configuration buffer content — empty or malformed —
makes it fail, and the instance is initialized to the documented defaults. -/
theorem create_null_iff_alloc_failure {K : Type} [LinearOrderedField K]
    (config : List Nat) (config_len : Nat) :
    plugin_create K config config_len false = none
    ∧ plugin_create K config config_len true
        = some { cutoff_freq := 50, sample_rate := 1000,
                 previous_output := 0, frame_count := 0 } :=
  ⟨rfl, rfl⟩

/-- C7: the created instance is independent of the configuration content:
any two successful `plugin_create` calls, on any byte buffers of any lengths,
yield identical initial states — the documented defaults `cutoff_freq = 50`,
`sample_rate = 1000`, `previous_output = 0`, `frame_count = 0`. -/
theorem create_independent_of_config {K : Type} [LinearOrderedField K]
    (config1 : List Nat) (len1 : Nat) (config2 : List Nat) (len2 : Nat) :
    plugin_create K config1 len1 true = plugin_create K config2 len2 true
    ∧ plugin_create K config1 len1 true
        = some { cutoff_freq := 50, sample_rate := 1000,
                 previous_output := 0, frame_count := 0 } :=
  ⟨rfl, rfl⟩

/-- C8: `plugin_get_info` is a constant function requiring no instance: every
call returns the same record, whose `abi_version` field equals
`PLUGIN_ABI_VERSION`, which is `1`. -/
theorem get_info_constant (u v : Unit) :
    plugin_get_info u = plugin_get_info v
    ∧ (plugin_get_info u).abi_version = PLUGIN_ABI_VERSION
    ∧ PLUGIN_ABI_VERSION = 1 :=
  ⟨rfl, rfl, rfl⟩

/-- C9: `plugin_destroy` on a null instance is a no-operation: it releases
nothing, and no live state exists after the call, exactly as before it. -/
theorem destroy_null_noop {K : Type} :
    plugin_destroy (none : Option (PluginState K)) = (false, none) :=
  rfl

/-- C10: `plugin_process` never changes `cutoff_freq` or `sample_rate`: a
successful call modifies only `previous_output` and `frame_count`, and a
failing call changes nothing; on instances made by `plugin_create`,
`cutoff_freq` stays `50` and `sample_rate` stays `1000` through any number of
calls, so for `pi > 0` the denominator `rc + dt` is nonzero for every
`dt ≥ 0`. -/
theorem process_preserves_config_fields {K : Type} [LinearOrderedField K]
    (pi : K) (st : PluginState K) (f w a dt : K)
    (ins : Nat → K × K × K × K) (config : List Nat) (config_len n : Nat) :
    Option.map PluginState.cutoff_freq
        (plugin_process pi (some st) f w a dt true).state = some st.cutoff_freq
    ∧ Option.map PluginState.sample_rate
        (plugin_process pi (some st) f w a dt true).state = some st.sample_rate
    ∧ (plugin_process pi (some st) f w a dt false).state = some st
    ∧ (plugin_process pi none f w a dt true).state = none
    ∧ Option.map PluginState.cutoff_freq
        ((plugin_create K config config_len true).bind (processIter pi ins n))
      = some 50
    ∧ Option.map PluginState.sample_rate
        ((plugin_create K config config_len true).bind (processIter pi ins n))
      = some 1000
    ∧ (0 < pi → 0 ≤ dt → rcOf pi 50 + dt ≠ 0) := by
  have hbind : (plugin_create K config config_len true).bind (processIter pi ins n)
      = processIter pi ins n ⟨50, 1000, 0, 0⟩ := rfl
  obtain ⟨s, hs, hc, hr, hf⟩ := processIter_spec pi ins ⟨50, 1000, 0, 0⟩ n
  refine ⟨rfl, rfl, rfl, rfl, ?_, ?_, fun hpi hdt => ?_⟩
  · rw [hbind, hs, Option.map_some', hc]
  · rw [hbind, hs, Option.map_some', hr]
  · have h2 : 0 < 2 * pi * (50 : K) := by positivity
    have hrc : 0 < rcOf pi 50 := div_pos one_pos h2
    exact ne_of_gt (by linarith)

theorem process_preserves_config_fields_witness :
    rcOf (22 / 7 : ℚ) 50 + 1 / 100 ≠ 0 :=
  (process_preserves_config_fields (22 / 7 : ℚ) ⟨50, 1000, 0, 0⟩ 0 0 0 (1 / 100)
    (fun _ => (0, 0, 0, 0)) [] 0 0).2.2.2.2.2.2 (by norm_num) (by norm_num)
